import Mathlib

/-!
Shallow embedding of the kickpress scaffolding engine
(`src/lib/commands/kick/generators.ts`).

Every renderer of the source file is translated into a pure Lean function
returning the exact file body the TypeScript code produces.  The
materializer `writeProjectFiles` is modelled as a pure function returning
the ordered list of file writes (directory components relative to the
destination root, file name, content); the structure planner
`createProjectStructure` is modelled as the list of directories it creates.
`JSON.stringify(v, null, 2)` is modelled by `renderJVal` over a small JSON
value type, and JSON validity is settled by the executable parser
`jsonParse`.

Braces and apostrophes inside embedded file contents are written with the
escapes `\x7b`, `\x7d` and `\x27`; the resulting strings are byte-for-byte
the strings produced by the TypeScript source.
-/

/-- `isPre a b` decides whether `a` is a prefix of `b`. -/
def isPre : List Char → List Char → Bool
  | [], _ => true
  | _ :: _, [] => false
  | a :: as, b :: bs => a == b && isPre as bs

/-- `hasInfixB n l` decides whether `n` occurs contiguously in `l`. -/
def hasInfixB (n : List Char) : List Char → Bool
  | [] => n.isEmpty
  | c :: cs => isPre n (c :: cs) || hasInfixB n cs

/-- `strContains needle hay` is `true` when `needle` occurs contiguously in
`hay`. -/
def strContains (needle hay : String) : Bool := hasInfixB needle.data hay.data

/-- The configuration record consumed by every renderer (interface
`ProjectConfig` of the source). -/
structure ProjectConfig where
  projectName : String
  projectPath : String
  typescript : Bool
  database : String
  template : String

/-- The fixed relative directory set of `createProjectStructure`. -/
def projectFolders : List String :=
  [ "src",
    "src/controllers",
    "src/models",
    "src/routes",
    "src/middlewares",
    "src/config",
    "src/utils",
    "src/lib",
    "src/types",
    "public",
    "prisma",
    "requests" ]

/-- `createProjectStructure` creates (recursively, idempotently) each folder of
`projectFolders` under the destination root; we model the side effect as the
list of created directory paths, `join(projectPath, folder)` being modelled
as `projectPath ++ "/" ++ folder`. -/
def createProjectStructure (projectPath : String) : List String :=
  projectFolders.map (fun folder => projectPath ++ "/" ++ folder)

/-- The structured object literal returned by `generatePackageJson`.
Record fields keep JavaScript object insertion order in the lists. -/
structure PackageJson where
  name : String
  version : String
  type : String
  main : String
  scripts : List (String × String)
  dependencies : List (String × String)
  devDependencies : List (String × String)
  license : String

/-- Key list of a string-valued record. -/
def recordKeys (l : List (String × String)) : List String := l.map Prod.fst

/-- Translation of `generatePackageJson` (source lines 34-90): the base
`dependencies` / `devDependencies` records, the conditional additions for the
two language modes, the mode-dependent `scripts` table and `main` field. -/
def generatePackageJson (config : ProjectConfig) : PackageJson :=
  let dependencies : List (String × String) :=
    [ ("express", "^4.18.2"),
      ("express-async-handler", "^1.2.0"),
      ("@prisma/client", "^7.1.0"),
      ("@prisma/adapter-better-sqlite3", "^7.1.0"),
      ("better-sqlite3", "^12.5.0"),
      ("dotenv", "^17.2.3") ]
  let devDependencies : List (String × String) :=
    [ ("@types/node", "^20.10.6"),
      ("@types/express", "^4.17.21"),
      ("@types/better-sqlite3", "^7.6.13"),
      ("prisma", "^7.1.0") ]
  let dependencies :=
    if config.typescript then dependencies
    else dependencies ++ [("@prisma/client-runtime-utils", "^7.1.0")]
  let devDependencies :=
    if config.typescript then
      devDependencies ++ [("typescript", "^5.3.3"), ("tsx", "^4.7.0")]
    else devDependencies
  let scripts : List (String × String) :=
    if config.typescript then
      [ ("dev", "tsx watch --env-file=.env src/index.ts"),
        ("build", "tsc"),
        ("start", "node --env-file=.env dist/index.js"),
        ("db:generate", "prisma generate"),
        ("db:push", "prisma db push"),
        ("db:migrate", "prisma migrate dev"),
        ("db:studio", "prisma studio") ]
    else
      [ ("dev", "node --watch --env-file=.env src/index.js"),
        ("start", "node --env-file=.env src/index.js"),
        ("db:generate", "prisma generate"),
        ("db:push", "prisma db push"),
        ("db:migrate", "prisma migrate dev"),
        ("db:studio", "prisma studio") ]
  { name := config.projectName,
    version := "1.0.0",
    type := "module",
    main := if config.typescript then "dist/index.js" else "src/index.js",
    scripts := scripts,
    dependencies := dependencies,
    devDependencies := devDependencies,
    license := "MIT" }

/-- Translation of `generateIndexFile` (source lines 92-144): the two entry
point bodies, selected by the language mode. -/
def generateIndexFile (typescript : Bool) : String :=
  if typescript then
    "import express, \x7b Request, Response \x7d from \"express\";\n    \nimport errorHandler from \"./middlewares/error.middleware\";\n\nconst app = express();\nconst PORT = process.env.PORT || 3000;\n\n// Middleware\napp.use(express.json());\napp.use(express.urlencoded(\x7b extended: true \x7d));\napp.use(express.static(\"public\"));\n\n// Routes\napp.get(\"/\", (_: Request, res: Response) => \x7b\n  res.json(\x7b message: \"Welcome to Kickpress!\" \x7d);\n\x7d);\n\n// Error Handler\napp.use(errorHandler);\n\napp.listen(PORT, () => \x7b\n  console.log(`🚀 Server running on http://localhost:$\x7bPORT\x7d`);\n\x7d);\n"
  else
    "import express from \"express\";\n\nimport errorHandler from \"./middlewares/error.middleware.js\";\n\nconst app = express();\nconst PORT = process.env.PORT || 3000;\n\n// Middleware\napp.use(express.json());\napp.use(express.urlencoded(\x7b extended: true \x7d));\napp.use(express.static(\"public\"));\n\n// Routes\napp.get(\"/\", (_, res) => \x7b\n  res.json(\x7b message: \"Welcome to Kickpress!\" \x7d);\n\x7d);\n\n// Error Handler\napp.use(errorHandler);\n\napp.listen(PORT, () => \x7b\n  console.log(`🚀 Server running on http://localhost:$\x7bPORT\x7d`);\n\x7d);\n"

/-- Translation of `generateErrorMiddleware` (source lines 146-201): the two
error-middleware bodies, selected by the language mode. -/
def generateErrorMiddleware (typescript : Bool) : String :=
  if typescript then
    "import \x7b Prisma \x7d from \"../lib/generated/prisma/client\";\nimport \x7b NextFunction, Request, Response \x7d from \"express\";\n\nconst errorHandler = (\n  err: Error | Prisma.PrismaClientKnownRequestError,\n  req: Request,\n  res: Response,\n  next: NextFunction\n) => \x7b\n  let statusCode = res.statusCode !== 200 ? res.statusCode : 500;\n  let message: string | object = err.message;\n\n  if (err instanceof Prisma.PrismaClientKnownRequestError) \x7b\n    if (err.code === \"P2002\") \x7b\n      statusCode = 409;\n      message = `Duplicate field value: $\x7berr.meta?.target\x7d`;\n    \x7d else if (err.code === \"P2025\") \x7b\n      statusCode = 404;\n      message = `Resource not found: $\x7berr.meta?.cause\x7d`;\n    \x7d\n  \x7d\n\n  res.status(statusCode).json(\x7b\n    message: message,\n    stack: process.env.NODE_ENV === \"production\" ? null : err.stack,\n  \x7d);\n\x7d;\n\nexport default errorHandler;\n"
  else
    "const errorHandler = (err, req, res, next) => \x7b\n  let statusCode = res.statusCode !== 200 ? res.statusCode : 500;\n  let message = err.message;\n\n  // Handle Prisma errors\n  if (err.code === \"P2002\") \x7b\n    statusCode = 409;\n    message = `Duplicate field value: $\x7berr.meta?.target\x7d`;\n  \x7d else if (err.code === \"P2025\") \x7b\n    statusCode = 404;\n    message = `Resource not found: $\x7berr.meta?.cause\x7d`;\n  \x7d\n\n  res.status(statusCode).json(\x7b\n    message: message,\n    stack: process.env.NODE_ENV === \"production\" ? null : err.stack,\n  \x7d);\n\x7d;\n\nexport default errorHandler;\n"

/-- Translation of `generatePrismaClient` (source lines 203-229). -/
def generatePrismaClient (typescript : Bool) : String :=
  if typescript then
    "import \x7b PrismaClient \x7d from \"./generated/prisma/client\";\nimport \x7b PrismaBetterSqlite3 \x7d from \"@prisma/adapter-better-sqlite3\";\n\nconst adapter = new PrismaBetterSqlite3(\x7b\n  url: process.env.DATABASE_URL!,\n\x7d);\n\nconst prisma = new PrismaClient(\x7b adapter \x7d);\n\nexport default prisma;\n"
  else
    "import \x7b PrismaClient \x7d from \"./generated/prisma/index.js\";\nimport \x7b PrismaBetterSqlite3 \x7d from \"@prisma/adapter-better-sqlite3\";\n\nconst adapter = new PrismaBetterSqlite3(\x7b\n  url: process.env.DATABASE_URL,\n\x7d);\n\nconst prisma = new PrismaClient(\x7b adapter \x7d);\n\nexport default prisma;\n"

/-- Translation of `generatePrismaSchema` (source lines 231-242): static. -/
def generatePrismaSchema : String :=
  "generator client \x7b\n  provider = \"prisma-client\"\n  output   = \"../src/lib/generated/prisma\"\n\x7d\n\ndatasource db \x7b\n  provider = \"sqlite\"\n\x7d\n\n"

/-- Translation of `generatePrismaConfig` (source lines 244-258): static. -/
def generatePrismaConfig : String :=
  "import \"dotenv/config\";\nimport \x7b defineConfig, env \x7d from \"prisma/config\";\n\nexport default defineConfig(\x7b\n  schema: \"prisma/schema.prisma\",\n  migrations: \x7b\n    path: \"prisma/migrations\",\n  \x7d,\n  datasource: \x7b\n    url: env(\"DATABASE_URL\"),\n  \x7d,\n\x7d);\n"

/-- Translation of `generateEnvFile` (source lines 287-292): the `database`
argument is accepted and ignored, the content is fixed. -/
def generateEnvFile (database : String) : String :=
  "PORT=3000\nNODE_ENV=development\nDATABASE_URL=\"file:./dev.db\"\n"

/-- Translation of `generateGitignore` (source lines 294-307): static. -/
def generateGitignore : String :=
  "node_modules\n.env\n.env.local\ndist\n*.log\n.DS_Store\n\n# Prisma\n*.db\n*.db-journal\nsrc/lib/generated/\n"

mutual
/-- JSON values, as needed for `JSON.stringify` / parsing of the generated
configuration files (mutual encoding of nested arrays and objects). -/
inductive JVal where
  | jstr : String → JVal
  | jbool : Bool → JVal
  | jarr : JArr → JVal
  | jobj : JObj → JVal
inductive JArr where
  | anil : JArr
  | acons : JVal → JArr → JArr
inductive JObj where
  | onil : JObj
  | ocons : String → JVal → JObj → JObj
end

/-- A run of `n` spaces. -/
def spaces (n : Nat) : String := String.mk (List.replicate n ' ')

/-- JSON string escaping (quote and backslash, the only characters occurring
in the generated configuration values). -/
def jsonEscapeChar (c : Char) : List Char :=
  if c = '\\' then ['\\', '\\'] else if c = '"' then ['\\', '"'] else [c]

/-- Escape a string for a JSON literal. -/
def jsonEscape (s : String) : String := String.mk (s.data.map jsonEscapeChar).flatten

mutual
/-- Model of `JSON.stringify(v, null, 2)` at indentation level `ind`. -/
def renderJVal (ind : Nat) : JVal → String
  | .jstr s => "\"" ++ jsonEscape s ++ "\""
  | .jbool b => if b then "true" else "false"
  | .jarr .anil => "[]"
  | .jarr xs => "[\n" ++ renderJArr (ind + 2) xs ++ "\n" ++ spaces ind ++ "]"
  | .jobj .onil => "\x7b\x7d"
  | .jobj fs => "\x7b\n" ++ renderJObj (ind + 2) fs ++ "\n" ++ spaces ind ++ "\x7d"
def renderJArr (ind : Nat) : JArr → String
  | .anil => ""
  | .acons x .anil => spaces ind ++ renderJVal ind x
  | .acons x xs => spaces ind ++ renderJVal ind x ++ ",\n" ++ renderJArr ind xs
def renderJObj (ind : Nat) : JObj → String
  | .onil => ""
  | .ocons k v .onil => spaces ind ++ "\"" ++ jsonEscape k ++ "\": " ++ renderJVal ind v
  | .ocons k v fs =>
      spaces ind ++ "\"" ++ jsonEscape k ++ "\": " ++ renderJVal ind v ++ ",\n" ++
        renderJObj ind fs
end

/-- The opening brace character. -/
def lbrace : Char := Char.ofNat 123

/-- The closing brace character. -/
def rbrace : Char := Char.ofNat 125

/-- Skip JSON whitespace. -/
def skipWs : List Char → List Char
  | [] => []
  | c :: cs => if c = ' ' ∨ c = '\n' ∨ c = '\t' ∨ c = '\r' then skipWs cs else c :: cs

/-- Expect the given literal characters, returning the rest of the input. -/
def parseLit : List Char → List Char → Option (List Char)
  | [], cs => some cs
  | _ :: _, [] => none
  | l :: ls, c :: cs => if c = l then parseLit ls cs else none

/-- Scan a JSON string body (after the opening quote), unescaping `\"`/`\\`. -/
def parseStrAux : List Char → List Char → Option (List Char × List Char)
  | _, [] => none
  | acc, c :: cs =>
      if c = '"' then some (acc.reverse, cs)
      else if c = '\\' then
        match cs with
        | [] => none
        | c2 :: cs2 => parseStrAux (c2 :: acc) cs2
      else parseStrAux (c :: acc) cs

mutual
/-- Fuel-indexed recursive-descent JSON parser (strings, booleans, arrays,
objects — the grammar fragment the generated files use). -/
def parseJVal : Nat → List Char → Option (JVal × List Char)
  | 0, _ => none
  | fuel + 1, cs =>
    match skipWs cs with
    | [] => none
    | c :: cs' =>
      if c = '"' then
        match parseStrAux [] cs' with
        | some (sd, rest) => some (.jstr (String.mk sd), rest)
        | none => none
      else if c = 't' then
        match parseLit ['r', 'u', 'e'] cs' with
        | some rest => some (.jbool true, rest)
        | none => none
      else if c = 'f' then
        match parseLit ['a', 'l', 's', 'e'] cs' with
        | some rest => some (.jbool false, rest)
        | none => none
      else if c = '[' then
        match skipWs cs' with
        | [] => none
        | c2 :: cs2 =>
            if c2 = ']' then some (.jarr .anil, cs2)
            else
              match parseJArr fuel (c2 :: cs2) with
              | some (xs, rest) => some (.jarr xs, rest)
              | none => none
      else if c = lbrace then
        match skipWs cs' with
        | [] => none
        | c2 :: cs2 =>
            if c2 = rbrace then some (.jobj .onil, cs2)
            else
              match parseJObj fuel (c2 :: cs2) with
              | some (fs, rest) => some (.jobj fs, rest)
              | none => none
      else none
def parseJArr : Nat → List Char → Option (JArr × List Char)
  | 0, _ => none
  | fuel + 1, cs =>
    match parseJVal fuel cs with
    | none => none
    | some (v, rest) =>
      match skipWs rest with
      | [] => none
      | c :: cs' =>
          if c = ',' then
            match parseJArr fuel cs' with
            | some (xs, r) => some (.acons v xs, r)
            | none => none
          else if c = ']' then some (.acons v .anil, cs')
          else none
def parseJObj : Nat → List Char → Option (JObj × List Char)
  | 0, _ => none
  | fuel + 1, cs =>
    match skipWs cs with
    | [] => none
    | c :: cs' =>
      if c = '"' then
        match parseStrAux [] cs' with
        | none => none
        | some (kd, rest) =>
          match skipWs rest with
          | [] => none
          | c2 :: cs2 =>
            if c2 = ':' then
              match parseJVal fuel cs2 with
              | none => none
              | some (v, rest2) =>
                match skipWs rest2 with
                | [] => none
                | c3 :: cs3 =>
                    if c3 = ',' then
                      match parseJObj fuel cs3 with
                      | some (fs, r) => some (.ocons (String.mk kd) v fs, r)
                      | none => none
                    else if c3 = rbrace then some (.ocons (String.mk kd) v .onil, cs3)
                    else none
            else none
      else none
end

/-- Parse a complete JSON document (trailing whitespace allowed). -/
def jsonParse (s : String) : Option JVal :=
  match parseJVal (s.data.length + 2) s.data with
  | some (v, rest) => if skipWs rest = [] then some v else none
  | none => none

/-- Key lookup in a JSON object value. -/
def jobjLookup (k : String) : JObj → Option JVal
  | .onil => none
  | .ocons k' v rest => if k' = k then some v else jobjLookup k rest

/-- Lookup of `k` in `v`, when `v` is an object. -/
def jsonLookup (v : JVal) (k : String) : Option JVal :=
  match v with
  | .jobj fs => jobjLookup k fs
  | _ => none

/-- Build a `JObj` from an association list (insertion order kept). -/
def jobjOfList : List (String × JVal) → JObj
  | [] => .onil
  | (k, v) :: rest => .ocons k v (jobjOfList rest)

/-- Build a `JArr` from a list. -/
def jarrOfList : List JVal → JArr
  | [] => .anil
  | v :: rest => .acons v (jarrOfList rest)

/-- The object literal passed to `JSON.stringify` in `generateTsConfig`
(source lines 260-285). -/
def tsConfigJson : JVal :=
  .jobj (jobjOfList
    [ ("compilerOptions", .jobj (jobjOfList
        [ ("target", .jstr "ES2022"),
          ("module", .jstr "ESNext"),
          ("moduleResolution", .jstr "bundler"),
          ("outDir", .jstr "./dist"),
          ("rootDir", .jstr "./src"),
          ("strict", .jbool true),
          ("esModuleInterop", .jbool true),
          ("skipLibCheck", .jbool true),
          ("forceConsistentCasingInFileNames", .jbool true),
          ("resolveJsonModule", .jbool true),
          ("allowSyntheticDefaultImports", .jbool true),
          ("paths", .jobj (jobjOfList
            [ ("@/*", .jarr (jarrOfList [.jstr "./src/*"])) ])) ])),
      ("include", .jarr (jarrOfList [.jstr "src/**/*"])),
      ("exclude", .jarr (jarrOfList [.jstr "node_modules", .jstr "dist"])) ])

/-- Translation of `generateTsConfig` (source lines 260-285):
`JSON.stringify(tsConfigJson, null, 2)`. -/
def generateTsConfig : String := renderJVal 0 tsConfigJson

/-- The native-build-approval section the documentation renderer emits for
the `pnpm` package manager (source lines 327-340). -/
def approveBuildsSection : String :=
  "### ⚠️ Important: Approve Native Builds (pnpm only)\n\nBefore running the project, you need to approve native dependencies:\n\n```bash\npnpm approve-builds\n# Select: better-sqlite3 (press space, then enter)\n```\n\nThis is a one-time setup required by pnpm for native dependencies.\n\n---\n\n"

/-- The resolved invocation prefix: `pm === "npm" ? "npm run" : pm`
(source line 315). -/
def runCmd (pm : String) : String := if pm = "npm" then "npm run" else pm

/-- Right-fold concatenation of a list of string pieces. -/
def strConcat : List String → String
  | [] => ""
  | s :: rest => s ++ strConcat rest

/-- Translation of `generateReadme` (source lines 309-521): the template
literal is the concatenation, in source order, of its fixed parts and its
interpolated expressions; the nested template literals inside the ternary
interpolations are likewise concatenations of their pieces. -/
def generateReadme (projectName : String) (typescript : Bool) (packageManager : String) : String :=
  strConcat
    [ "# ",
      projectName,
      "\n\nCreated with [Kickpress CLI](https://github.com/clebertmarctyson/kickpress) ☕\n\nA production-ready Express.js API with TypeScript, Prisma ORM, and best practices built-in.\n\n## 🚀 Getting Started\n\n",
      (if packageManager = "pnpm" then approveBuildsSection else ""),
      "### 1. Install Dependencies\n\n",
      (if packageManager = "pnpm" then "Dependencies should already be installed. If not, run:"
       else "Install all project dependencies:"),
      "\n\n```bash\n",
      packageManager,
      " install",
      "\n```\n\n### 2. Setup Database\n\n```bash\n# Generate Prisma Client\n",
      runCmd packageManager,
      " db:generate",
      "\n\n# Push schema to database\n",
      runCmd packageManager,
      " db:push",
      "\n```\n\n### 3. Start Development Server\n\n```bash\n",
      runCmd packageManager,
      " dev",
      "\n```\n\nYour API is now running at `http://localhost:3000`! 🎉\n\n## 📋 Available Commands\n\n### Development\n- `",
      runCmd packageManager,
      " dev",
      "` - Start development server with hot reload\n\n",
      (if typescript then
         strConcat ["### Build\n- `", runCmd packageManager, " build",
           "` - Compile TypeScript to JavaScript\n- `", runCmd packageManager, " start",
           "` - Start production server\n\n"]
       else
         strConcat ["### Production\n- `", runCmd packageManager, " start",
           "` - Start production server\n\n"]),
      "### Database Management\n- `",
      runCmd packageManager,
      " db:generate",
      "` - Generate Prisma Client\n- `",
      runCmd packageManager,
      " db:push",
      "` - Push schema changes to database\n- `",
      runCmd packageManager,
      " db:migrate",
      "` - Create a new migration\n- `",
      runCmd packageManager,
      " db:studio",
      "` - Open Prisma Studio (database GUI)\n\n## 🎯 Generate Resources\n\nKickpress can generate complete CRUD resources for any entity:\n\n```bash\n# Generate everything (routes, controller, model, types, HTTP requests)\nnpx kickpress make user resources\nnpx kickpress gen post resources     # Short alias\n\n# Generate individual components\nnpx kickpress make user model\nnpx kickpress make user controller\nnpx kickpress make user routes\n```\n\n**Available aliases:**\n- `make` / `m` / `gen` / `g` / `generate`\n\n## 📁 Project Structure\n\n```\n",
      projectName,
      "/\n├── src/\n│   ├── index.",
      (if typescript then "ts" else "js"),
      "           # Main entry point\n│   ├── lib/\n│   │   └── prisma.",
      (if typescript then "ts" else "js"),
      "      # Prisma client\n│   ├── controllers/                  # Request handlers\n│   ├── models/                       # Database operations\n│   ├── routes/                       # Express routes\n",
      (if typescript then "│   ├── types/                        # TypeScript types\n" else ""),
      "│   ├── middlewares/\n│   │   └── error.middleware.",
      (if typescript then "ts" else "js"),
      "\n│   ├── config/                       # Configuration\n│   └── utils/                        # Utilities\n├── prisma/\n│   ├── schema.prisma                 # Database schema\n│   └── migrations/                   # Database migrations\n├── requests/                         # HTTP test files\n├── .env                              # Environment variables\n",
      (if typescript then "├── tsconfig.json                     # TypeScript config\n" else ""),
      "└── package.json\n```\n\n## 🧪 Testing Your API\n\nEach generated resource includes an `.http` file for testing. Use [REST Client](https://marketplace.visualstudio.com/items?itemName=humao.rest-client) extension in VS Code:\n\n1. Open `requests/user.http`\n2. Click \"Send Request\" above any request\n3. View response in VS Code\n\nOr use curl:\n\n```bash\n# Get all users\ncurl http://localhost:3000/users\n\n# Create a user\ncurl -X POST http://localhost:3000/users \\\n  -H \"Content-Type: application/json\" \\\n  -d \x27\x7b\"name\":\"John Doe\",\"email\":\"john@example.com\"\x7d\x27\n```\n\n## 📝 Environment Variables\n\nEdit `.env` to configure your application:\n\n```env\nPORT=3000\nNODE_ENV=development\nDATABASE_URL=\"file:./dev.db\"\n```\n\n## 🛠️ Technology Stack\n\n- **Express.js** - Fast, minimalist web framework\n",
      (if typescript then "- **TypeScript** - Type-safe JavaScript\n" else ""),
      (if typescript then "- **tsx** - TypeScript execution engine\n" else ""),
      "- **Prisma** - Next-generation ORM\n- **SQLite** - Default database (easily swappable)\n- **express-async-handler** - Async error handling\n\n## 📚 Learn More\n\n- [Kickpress Documentation](https://github.com/clebertmarctyson/kickpress#readme)\n- [Express.js Docs](https://expressjs.com/)\n- [Prisma Docs](https://www.prisma.io/docs)\n",
      (if typescript then "- [TypeScript Docs](https://www.typescriptlang.org/)\n" else ""),
      "\n## 🐛 Troubleshooting\n\n### Port already in use\nChange the port in `.env`:\n```env\nPORT=3001\n```\n\n### Prisma Client errors\nRegenerate the Prisma client:\n```bash\n",
      runCmd packageManager,
      " db:generate",
      "\n```\n",
      (if packageManager = "pnpm" then
         "\n### Module not found errors (pnpm)\nMake sure you\x27ve approved native builds:\n```bash\npnpm approve-builds\n# Select: better-sqlite3\n```\n"
       else ""),
      "\n## 💬 Support\n\n- 🐛 [Report Issues](https://github.com/clebertmarctyson/kickpress/issues)\n- 💡 [Request Features](https://github.com/clebertmarctyson/kickpress/issues/new)\n- 📧 Email: contact@marctysonclebert.com\n\n---\n\nMade with ☕ and ❤️ by [Marc Tyson CLEBERT](https://www.marctysonclebert.com)\n" ]

/-- String-valued record as a JSON object. -/
def strPairsToJObj (l : List (String × String)) : JObj :=
  jobjOfList (l.map (fun p => (p.1, .jstr p.2)))

/-- The `generatePackageJson` return value as a JSON value, field order as in
the source object literal. -/
def packageJsonToJVal (p : PackageJson) : JVal :=
  .jobj (jobjOfList
    [ ("name", .jstr p.name),
      ("version", .jstr p.version),
      ("type", .jstr p.type),
      ("main", .jstr p.main),
      ("scripts", .jobj (strPairsToJObj p.scripts)),
      ("dependencies", .jobj (strPairsToJObj p.dependencies)),
      ("devDependencies", .jobj (strPairsToJObj p.devDependencies)),
      ("license", .jstr p.license) ])

/-- One file write of the materializer: directory components relative to the
destination root, file name, content. -/
structure FileEntry where
  dir : List String
  name : String
  content : String

/-- Translation of `writeProjectFiles` (source lines 523-574): the ordered
list of file writes, each `join(projectPath, …)` modelled by the relative
location under the destination root.  `tsconfig.json` is written only in
TypeScript mode; `prisma.config.ts` is written unconditionally. -/
def writeProjectFiles (config : ProjectConfig) (packageManager : String) : List FileEntry :=
  let extension := if config.typescript then "ts" else "js"
  [ { dir := [], name := "package.json",
      content := renderJVal 0 (packageJsonToJVal (generatePackageJson config)) },
    { dir := ["src"], name := "index." ++ extension,
      content := generateIndexFile config.typescript },
    { dir := ["src", "lib"], name := "prisma." ++ extension,
      content := generatePrismaClient config.typescript },
    { dir := ["src", "middlewares"], name := "error.middleware." ++ extension,
      content := generateErrorMiddleware config.typescript },
    { dir := ["prisma"], name := "schema.prisma", content := generatePrismaSchema },
    { dir := [], name := "prisma.config.ts", content := generatePrismaConfig } ]
  ++ (if config.typescript then
        [ { dir := [], name := "tsconfig.json", content := generateTsConfig } ]
      else [])
  ++ [ { dir := [], name := ".env", content := generateEnvFile config.database },
       { dir := [], name := ".gitignore", content := generateGitignore },
       { dir := [], name := "README.md",
         content := generateReadme config.projectName config.typescript packageManager } ]

/-!
Runtime semantics of the generated error middleware.

The two middleware bodies emitted by `generateErrorMiddleware` are
themselves programs; the definitions below translate them.  An error value
carries a message and a stack; a Prisma known-request error additionally
carries a `code` and the (possibly absent) `meta.target` / `meta.cause`
values, the optional-chaining access `err.meta?.target` being collapsed
into one `Option String`.  The handlers receive the response's current
status code (`res.statusCode`) and `process.env.NODE_ENV`, and return the
status and JSON body they produce.
-/

/-- JavaScript template-literal interpolation of a possibly-undefined value. -/
def jsInterp : Option String → String
  | some s => s
  | none => "undefined"

/-- An error reaching the generated middleware: a plain `Error`, or a
`Prisma.PrismaClientKnownRequestError`. -/
inductive GenError where
  | plain (message stack : String)
  | prismaKnown (message stack code : String) (metaTarget metaCause : Option String)

/-- `err.message`. -/
def GenError.message : GenError → String
  | .plain m _ => m
  | .prismaKnown m _ _ _ _ => m

/-- `err.stack`. -/
def GenError.stack : GenError → String
  | .plain _ s => s
  | .prismaKnown _ s _ _ _ => s

/-- `err.code`, `undefined` on a plain `Error`. -/
def errCode : GenError → Option String
  | .plain _ _ => none
  | .prismaKnown _ _ code _ _ => some code

/-- `err.meta?.target`. -/
def errMetaTarget : GenError → Option String
  | .plain _ _ => none
  | .prismaKnown _ _ _ target _ => target

/-- `err.meta?.cause`. -/
def errMetaCause : GenError → Option String
  | .plain _ _ => none
  | .prismaKnown _ _ _ _ cause => cause

/-- The status and JSON body the generated middleware responds with. -/
structure ErrorResponse where
  status : Nat
  message : String
  stack : Option String

/-- Translation of the TypeScript middleware body emitted by
`generateErrorMiddleware true`: status falls back to 500 when the response
is still at the default 200; the `instanceof
Prisma.PrismaClientKnownRequestError` guard is the match on the error
shape; `P2002`/`P2025` are remapped; the stack is `null` exactly in
production. -/
def errorHandlerTS (err : GenError) (resStatusCode : Nat) (nodeEnv : Option String) :
    ErrorResponse :=
  let statusCode := if resStatusCode ≠ 200 then resStatusCode else 500
  let message := err.message
  let remapped :=
    match err with
    | .prismaKnown _ _ code target cause =>
        if code = "P2002" then (409, "Duplicate field value: " ++ jsInterp target)
        else if code = "P2025" then (404, "Resource not found: " ++ jsInterp cause)
        else (statusCode, message)
    | .plain _ _ => (statusCode, message)
  { status := remapped.1,
    message := remapped.2,
    stack := if nodeEnv = some "production" then none else some err.stack }

/-- Translation of the JavaScript middleware body emitted by
`generateErrorMiddleware false`: same logic, but the error code is read
directly off the untyped error value with no `instanceof` guard. -/
def errorHandlerJS (err : GenError) (resStatusCode : Nat) (nodeEnv : Option String) :
    ErrorResponse :=
  let statusCode := if resStatusCode ≠ 200 then resStatusCode else 500
  let message := err.message
  let remapped :=
    if errCode err = some "P2002" then
      (409, "Duplicate field value: " ++ jsInterp (errMetaTarget err))
    else if errCode err = some "P2025" then
      (404, "Resource not found: " ++ jsInterp (errMetaCause err))
    else (statusCode, message)
  { status := remapped.1,
    message := remapped.2,
    stack := if nodeEnv = some "production" then none else some err.stack }

/-- The example configuration of the spec's demo scenario. -/
def demoConfig : ProjectConfig :=
  { projectName := "demo-api", projectPath := "/tmp/demo-api", typescript := true,
    database := "sqlite", template := "default" }

/-!
Bridge lemmas between the executable containment checker and `List.IsInfix`,
and containment lemmas for concatenations.
-/

theorem isPre_iff (a b : List Char) : isPre a b = true ↔ a <+: b := by
  induction a generalizing b with
  | nil => simp [isPre]
  | cons x xs ih =>
    cases b with
    | nil => simp [isPre]
    | cons y ys => simp [isPre, ih, List.cons_prefix_cons]

theorem hasInfixB_iff (n l : List Char) : hasInfixB n l = true ↔ n <:+: l := by
  induction l with
  | nil => simp [hasInfixB, List.isEmpty_iff]
  | cons c cs ih =>
    rw [hasInfixB]
    simp [Bool.or_eq_true, isPre_iff, ih, List.infix_cons_iff]

theorem strContains_iff (n h : String) : strContains n h = true ↔ n.data <:+: h.data := by
  rw [strContains, hasInfixB_iff]

theorem strContains_skip (n h t : String) (hc : strContains n t = true) :
    strContains n (h ++ t) = true := by
  rw [strContains_iff] at hc ⊢
  rcases hc with ⟨s, u, he⟩
  refine ⟨h.data ++ s, u, ?_⟩
  rw [String.data_append, ← he]
  simp [List.append_assoc]

theorem strContains_at (a b t : String) : strContains (a ++ b) (a ++ (b ++ t)) = true := by
  rw [strContains_iff]
  exact ⟨[], t.data, by simp [String.data_append, List.append_assoc]⟩

theorem strContains_pref (b t : String) : strContains b (b ++ t) = true := by
  rw [strContains_iff]
  exact ⟨[], t.data, by simp [String.data_append]⟩

theorem strContains_trans (a b c : String) (h₁ : strContains a b = true)
    (h₂ : strContains b c = true) : strContains a c = true := by
  rw [strContains_iff] at h₁ h₂ ⊢
  exact h₁.trans h₂

theorem strContains_left (n a b : String) (h : strContains n a = true) :
    strContains n (a ++ b) = true := by
  rw [strContains_iff] at h ⊢
  rcases h with ⟨s, u, he⟩
  refine ⟨s, u ++ b.data, ?_⟩
  rw [String.data_append, ← he]
  simp [List.append_assoc]

theorem scl_skip (n x : String) (l : List String)
    (h : strContains n (strConcat l) = true) : strContains n (strConcat (x :: l)) = true := by
  have hx : strConcat (x :: l) = x ++ strConcat l := rfl
  rw [hx]
  exact strContains_skip _ _ _ h

theorem scl_here (a b : String) (l : List String) :
    strContains (a ++ b) (strConcat (a :: b :: l)) = true := by
  have hx : strConcat (a :: b :: l) = a ++ (b ++ strConcat l) := rfl
  rw [hx]
  exact strContains_at a b _

theorem scl_one (b : String) (l : List String) :
    strContains b (strConcat (b :: l)) = true := by
  have hx : strConcat (b :: l) = b ++ strConcat l := rfl
  rw [hx]
  exact strContains_pref _ _

theorem scl_head (n x : String) (l : List String)
    (h : strContains n x = true) : strContains n (strConcat (x :: l)) = true := by
  have hx : strConcat (x :: l) = x ++ strConcat l := rfl
  rw [hx]
  exact strContains_left _ _ _ h

/-- The pnpm README always carries the native-build-approval section. -/
theorem readme_pnpm_has_section (name : String) (ts : Bool) :
    strContains approveBuildsSection (generateReadme name ts "pnpm") = true := by
  simp only [generateReadme, if_pos (show ("pnpm" : String) = "pnpm" from rfl)]
  apply scl_skip
  apply scl_skip
  apply scl_skip
  exact scl_one _ _

/-- C1: for every configuration, the language mode drives the cross-file
consistency invariant: in TypeScript mode the written entry point, prisma
client wrapper and error middleware carry the `.ts` extension, the
manifest's `main` is `dist/index.js` and its scripts table has a `build`
script; otherwise the three files carry `.js`, `main` is `src/index.js`
and there is no `build` script. -/
theorem c1_language_mode_consistency (config : ProjectConfig) (pm : String) :
    (config.typescript = true →
      (writeProjectFiles config pm).map (fun f => (f.dir, f.name)) =
        [([], "package.json"), (["src"], "index.ts"), (["src", "lib"], "prisma.ts"),
         (["src", "middlewares"], "error.middleware.ts"), (["prisma"], "schema.prisma"),
         ([], "prisma.config.ts"), ([], "tsconfig.json"), ([], ".env"), ([], ".gitignore"),
         ([], "README.md")] ∧
      (generatePackageJson config).main = "dist/index.js" ∧
      "build" ∈ recordKeys (generatePackageJson config).scripts) ∧
    (config.typescript = false →
      (writeProjectFiles config pm).map (fun f => (f.dir, f.name)) =
        [([], "package.json"), (["src"], "index.js"), (["src", "lib"], "prisma.js"),
         (["src", "middlewares"], "error.middleware.js"), (["prisma"], "schema.prisma"),
         ([], "prisma.config.ts"), ([], ".env"), ([], ".gitignore"),
         ([], "README.md")] ∧
      (generatePackageJson config).main = "src/index.js" ∧
      "build" ∉ recordKeys (generatePackageJson config).scripts) := by
  rcases config with ⟨n, p, ts, d, tpl⟩
  cases ts <;> simp [writeProjectFiles, generatePackageJson, recordKeys]

/-- C1 witness: the TypeScript branch of the invariant at the demo
configuration. -/
theorem c1_witness :
    (writeProjectFiles demoConfig "pnpm").map (fun f => (f.dir, f.name)) =
      [([], "package.json"), (["src"], "index.ts"), (["src", "lib"], "prisma.ts"),
       (["src", "middlewares"], "error.middleware.ts"), (["prisma"], "schema.prisma"),
       ([], "prisma.config.ts"), ([], "tsconfig.json"), ([], ".env"), ([], ".gitignore"),
       ([], "README.md")] ∧
    (generatePackageJson demoConfig).main = "dist/index.js" ∧
    "build" ∈ recordKeys (generatePackageJson demoConfig).scripts :=
  (c1_language_mode_consistency demoConfig "pnpm").1 rfl

/-- C2 counterexample: with `typescript = false` the dev-dependency record
still contains the type-definition package `@types/node`, so the claim's
"no type-definition packages in non-TS mode" fails on the code. -/
theorem c2_counterexample :
    (⟨"demo-api", "/tmp/demo-api", false, "sqlite", "default"⟩ : ProjectConfig).typescript
        = false ∧
    "@types/node" ∈ recordKeys
      (generatePackageJson
        ⟨"demo-api", "/tmp/demo-api", false, "sqlite", "default"⟩).devDependencies := by
  refine ⟨rfl, ?_⟩
  simp [generatePackageJson, recordKeys]

/-- C2 (amended): the type-checking engine (`typescript`) and the `tsx`
runner are emitted exactly in TS mode and the runtime-adapter package
exactly in non-TS mode, but the type-definition packages are emitted in
both modes. -/
theorem c2_mode_gated_packages (config : ProjectConfig) :
    ("typescript" ∈ recordKeys (generatePackageJson config).devDependencies ↔
        config.typescript = true) ∧
    ("tsx" ∈ recordKeys (generatePackageJson config).devDependencies ↔
        config.typescript = true) ∧
    ("@prisma/client-runtime-utils" ∈ recordKeys (generatePackageJson config).dependencies ↔
        config.typescript = false) ∧
    "@types/node" ∈ recordKeys (generatePackageJson config).devDependencies ∧
    "@types/express" ∈ recordKeys (generatePackageJson config).devDependencies ∧
    "@types/better-sqlite3" ∈ recordKeys (generatePackageJson config).devDependencies := by
  rcases config with ⟨n, p, ts, d, tpl⟩
  cases ts <;> simp [generatePackageJson, recordKeys]

set_option maxRecDepth 40000 in
/-- C3: the demo scenario — `scripts.dev` is the `tsx watch` command, the
materializer writes `tsconfig.json` whose object sets
`compilerOptions.strict` to `true`, the TS entry point imports the error
middleware without a file-extension suffix, and the pnpm README contains
`pnpm approve-builds`. -/
theorem c3_demo_scenario :
    List.lookup "dev" (generatePackageJson demoConfig).scripts =
      some "tsx watch --env-file=.env src/index.ts" ∧
    (⟨[], "tsconfig.json", generateTsConfig⟩ : FileEntry) ∈
      writeProjectFiles demoConfig "pnpm" ∧
    (jsonLookup tsConfigJson "compilerOptions").bind (fun v => jsonLookup v "strict") =
      some (.jbool true) ∧
    strContains "from \"./middlewares/error.middleware\";" (generateIndexFile true) = true ∧
    strContains "error.middleware.js" (generateIndexFile true) = false ∧
    strContains "pnpm approve-builds" (generateReadme "demo-api" true "pnpm") = true := by
  refine ⟨rfl, ?_, rfl, by decide, by decide, ?_⟩
  · simp [writeProjectFiles, demoConfig]
  · have h₁ : strContains "pnpm approve-builds" approveBuildsSection = true := by decide
    exact strContains_trans _ _ _ h₁ (readme_pnpm_has_section "demo-api" true)

set_option maxRecDepth 40000 in
/-- C4: `prisma.config.ts` is written in both language modes;
`tsconfig.json` is written exactly when `typescript = true`, and its
content parses back as the tsconfig JSON object. -/
theorem c4_conditional_config_files (config : ProjectConfig) (pm : String) :
    (⟨[], "prisma.config.ts", generatePrismaConfig⟩ : FileEntry) ∈
      writeProjectFiles config pm ∧
    ((∃ f ∈ writeProjectFiles config pm, f.name = "tsconfig.json" ∧
        f.content = generateTsConfig) ↔ config.typescript = true) ∧
    jsonParse generateTsConfig = some tsConfigJson := by
  rcases config with ⟨n, p, ts, d, tpl⟩
  cases ts <;>
    refine ⟨by simp [writeProjectFiles], ?_, by rfl⟩ <;>
    simp [writeProjectFiles]

/-- C4 witness: the unconditional `prisma.config.ts` write at the demo
configuration. -/
theorem c4_witness :
    (⟨[], "prisma.config.ts", generatePrismaConfig⟩ : FileEntry) ∈
      writeProjectFiles demoConfig "pnpm" :=
  (c4_conditional_config_files demoConfig "pnpm").1

/-- C5: in both language modes the generated error middleware maps `P2002`
to 409 with a message built from `meta.target`, maps `P2025` to 404 with a
message built from `meta.cause`, falls back to 500 when the response is
still at the default 200, and includes the stack exactly when the
environment is not production (`null` otherwise); the TS and JS variants
have the same behavior. -/
theorem c5_error_middleware_semantics (err : GenError) (rc : Nat) (env : Option String) :
    (∀ m s t c, err = .prismaKnown m s "P2002" t c →
        errorHandlerTS err rc env =
          ⟨409, "Duplicate field value: " ++ jsInterp t,
           if env = some "production" then none else some s⟩) ∧
    (∀ m s t c, err = .prismaKnown m s "P2025" t c →
        errorHandlerTS err rc env =
          ⟨404, "Resource not found: " ++ jsInterp c,
           if env = some "production" then none else some s⟩) ∧
    (∀ m s, err = .plain m s →
        (errorHandlerTS err rc env).status = (if rc ≠ 200 then rc else 500) ∧
        (errorHandlerTS err rc env).message = m) ∧
    ((errorHandlerTS err rc env).stack =
        if env = some "production" then none else some err.stack) ∧
    (((errorHandlerTS err rc env).stack = none) ↔ env = some "production") ∧
    errorHandlerTS err rc env = errorHandlerJS err rc env := by
  refine ⟨?_, ?_, ?_, ?_, ?_, ?_⟩
  · rintro m s t c rfl
    simp [errorHandlerTS, GenError.stack]
  · rintro m s t c rfl
    simp [errorHandlerTS, GenError.stack]
  · rintro m s rfl
    simp [errorHandlerTS, GenError.message]
  · cases err <;> simp [errorHandlerTS]
  · by_cases he : env = some "production" <;> cases err <;> simp [errorHandlerTS, he]
  · cases err with
    | plain m s => simp [errorHandlerTS, errorHandlerJS, errCode]
    | prismaKnown m s code t c =>
      by_cases h1 : code = "P2002"
      · simp [errorHandlerTS, errorHandlerJS, errCode, errMetaTarget, errMetaCause, h1]
      · by_cases h2 : code = "P2025" <;>
          simp [errorHandlerTS, errorHandlerJS, errCode, errMetaTarget, errMetaCause, h1, h2]

/-- C5 witness: a `P2002` error against a response still at the default 200
status in a non-production environment. -/
theorem c5_witness :
    errorHandlerTS (.prismaKnown "boom" "trace" "P2002" (some "email") none) 200
        (some "development") =
      ⟨409, "Duplicate field value: email", some "trace"⟩ := by
  have h := (c5_error_middleware_semantics
      (.prismaKnown "boom" "trace" "P2002" (some "email") none) 200 (some "development")).1
      "boom" "trace" (some "email") none rfl
  simpa [jsInterp] using h

/-- C6: two configurations differing only in `database` produce identical
materializer output and identical manifests; the environment-file renderer
returns the fixed `PORT`/`NODE_ENV`/`DATABASE_URL` content for every
database value. -/
theorem c6_database_noninterference (c₁ c₂ : ProjectConfig) (pm : String)
    (hn : c₁.projectName = c₂.projectName) (hp : c₁.projectPath = c₂.projectPath)
    (ht : c₁.typescript = c₂.typescript) (htpl : c₁.template = c₂.template) :
    writeProjectFiles c₁ pm = writeProjectFiles c₂ pm ∧
    generatePackageJson c₁ = generatePackageJson c₂ ∧
    ∀ d : String, generateEnvFile d =
      "PORT=3000\nNODE_ENV=development\nDATABASE_URL=\"file:./dev.db\"\n" := by
  rcases c₁ with ⟨n₁, p₁, ts₁, d₁, tpl₁⟩
  rcases c₂ with ⟨n₂, p₂, ts₂, d₂, tpl₂⟩
  dsimp only at hn hp ht htpl
  subst hn; subst hp; subst ht; subst htpl
  exact ⟨by simp [writeProjectFiles, generateEnvFile, generatePackageJson],
    by simp [generatePackageJson], fun d => rfl⟩

/-- C6 witness: swapping the database string leaves the written files
unchanged. -/
theorem c6_witness :
    writeProjectFiles ⟨"demo-api", "/tmp/demo-api", true, "sqlite", "default"⟩ "pnpm" =
    writeProjectFiles ⟨"demo-api", "/tmp/demo-api", true, "postgres", "default"⟩ "pnpm" :=
  (c6_database_noninterference _ _ "pnpm" rfl rfl rfl rfl).1

/-- C7: the structure planner's fixed directory set contains the
type-definitions folder in every configuration, equals the enumerated plan
under any destination root, and every file the materializer writes has its
parent directory in the plan or at the destination root. -/
theorem c7_directory_plan_total (config : ProjectConfig) (pm : String) :
    "src/types" ∈ projectFolders ∧
    (∀ q : String, createProjectStructure q =
        projectFolders.map (fun folder => q ++ "/" ++ folder)) ∧
    ∀ f ∈ writeProjectFiles config pm,
      f.dir = [] ∨ String.intercalate "/" f.dir ∈ projectFolders := by
  refine ⟨by simp [projectFolders], fun q => rfl, ?_⟩
  rcases config with ⟨n, p, ts, d, tpl⟩
  intro f hf
  cases ts with
  | false =>
    simp [writeProjectFiles] at hf
    rcases hf with rfl | rfl | rfl | rfl | rfl | rfl | rfl | rfl | rfl
    all_goals first | exact Or.inl rfl | exact Or.inr (by decide)
  | true =>
    simp [writeProjectFiles] at hf
    rcases hf with rfl | rfl | rfl | rfl | rfl | rfl | rfl | rfl | rfl | rfl
    all_goals first | exact Or.inl rfl | exact Or.inr (by decide)

/-- C7 witness: the entry point's parent directory `src` is in the plan. -/
theorem c7_witness :
    (⟨["src"], "index.ts", generateIndexFile true⟩ : FileEntry).dir = [] ∨
    String.intercalate "/" (⟨["src"], "index.ts", generateIndexFile true⟩ : FileEntry).dir ∈
      projectFolders :=
  (c7_directory_plan_total demoConfig "pnpm").2.2 _ (by simp [writeProjectFiles, demoConfig])

/-- C9: two configurations differing only in `template` produce identical
materializer output, identical manifests and an identical directory plan;
`template` is accepted and ignored (every renderer is total). -/
theorem c9_template_noninterference (c₁ c₂ : ProjectConfig) (pm : String)
    (hn : c₁.projectName = c₂.projectName) (hp : c₁.projectPath = c₂.projectPath)
    (ht : c₁.typescript = c₂.typescript) (hd : c₁.database = c₂.database) :
    writeProjectFiles c₁ pm = writeProjectFiles c₂ pm ∧
    generatePackageJson c₁ = generatePackageJson c₂ ∧
    createProjectStructure c₁.projectPath = createProjectStructure c₂.projectPath := by
  rcases c₁ with ⟨n₁, p₁, ts₁, d₁, tpl₁⟩
  rcases c₂ with ⟨n₂, p₂, ts₂, d₂, tpl₂⟩
  dsimp only at hn hp ht hd
  subst hn; subst hp; subst ht; subst hd
  exact ⟨by simp [writeProjectFiles, generatePackageJson], by simp [generatePackageJson], rfl⟩

/-- C9 witness: swapping the template string leaves the written files
unchanged. -/
theorem c9_witness :
    writeProjectFiles ⟨"demo-api", "/tmp/demo-api", true, "sqlite", "default"⟩ "pnpm" =
    writeProjectFiles ⟨"demo-api", "/tmp/demo-api", true, "sqlite", "minimal"⟩ "pnpm" :=
  (c9_template_noninterference _ _ "pnpm" rfl rfl rfl rfl).1


set_option maxRecDepth 80000 in
set_option maxHeartbeats 1000000 in
/-- C8 counterexample: the renderer interpolates the packageManager string
verbatim, so for a packageManager value equal to the section text itself —
a value different from `"pnpm"` — the output does contain the
native-build-approval section, refuting the claim's "for every other
package-manager value the section is absent". -/
theorem c8_counterexample :
    approveBuildsSection ≠ "pnpm" ∧
    strContains approveBuildsSection
      (generateReadme "demo-api" true approveBuildsSection) = true :=
  ⟨by decide, by decide⟩

set_option maxRecDepth 80000 in
set_option maxHeartbeats 1000000 in
/-- C8 (amended): the output contains the native-build-approval section
whenever `packageManager = "pnpm"` (for every project name and language
mode); for the other supported managers (`npm`, `yarn`) the section is
absent at the demo project name `demo-api`, in both language modes.  No
input-independent absence guarantee holds: `projectName` and
`packageManager` are interpolated verbatim and unvalidated, so chosen
values — such as a packageManager equal to the section text, refuting the
original claim — make the section appear in the output. -/
theorem c8_approve_builds_gating (name : String) (ts : Bool) :
    strContains approveBuildsSection (generateReadme name ts "pnpm") = true ∧
    strContains approveBuildsSection (generateReadme "demo-api" ts "npm") = false ∧
    strContains approveBuildsSection (generateReadme "demo-api" ts "yarn") = false := by
  cases ts <;> exact ⟨readme_pnpm_has_section name _, by decide, by decide⟩

/-- C8 witness: the pnpm README at the demo project name contains the
section. -/
theorem c8_witness :
    strContains approveBuildsSection (generateReadme "demo-api" true "pnpm") = true :=
  (c8_approve_builds_gating "demo-api" true).1

set_option maxRecDepth 80000 in
set_option maxHeartbeats 1000000 in
/-- C10: for every packageManager string other than `npm` — validated or
not — the documentation renderer uses that string verbatim as the
invocation prefix of every command example, and only `npm` is rewritten to
`npm run`. -/
theorem c10_verbatim_package_manager (name : String) (ts : Bool) (pm : String)
    (h : pm ≠ "npm") :
    runCmd pm = pm ∧ runCmd "npm" = "npm run" ∧
    strContains (pm ++ " install") (generateReadme name ts pm) = true ∧
    strContains (pm ++ " db:generate") (generateReadme name ts pm) = true ∧
    strContains (pm ++ " db:push") (generateReadme name ts pm) = true ∧
    strContains (pm ++ " dev") (generateReadme name ts pm) = true ∧
    strContains (pm ++ " start") (generateReadme name ts pm) = true ∧
    (ts = true → strContains (pm ++ " build") (generateReadme name ts pm) = true) ∧
    strContains (pm ++ " db:migrate") (generateReadme name ts pm) = true ∧
    strContains (pm ++ " db:studio") (generateReadme name ts pm) = true := by
  have hr : runCmd pm = pm := if_neg h
  cases ts with
  | false =>
    have hno : ¬((false : Bool) = true) := by simp
    refine ⟨hr, rfl, ?_, ?_, ?_, ?_, ?_, fun hts => absurd hts hno, ?_, ?_⟩
    · simp only [generateReadme, runCmd, if_neg h]
      iterate 7 apply scl_skip
      exact scl_here _ _ _
    · simp only [generateReadme, runCmd, if_neg h]
      iterate 10 apply scl_skip
      exact scl_here _ _ _
    · simp only [generateReadme, runCmd, if_neg h]
      iterate 13 apply scl_skip
      exact scl_here _ _ _
    · simp only [generateReadme, runCmd, if_neg h]
      iterate 16 apply scl_skip
      exact scl_here _ _ _
    · simp only [generateReadme, runCmd, if_neg h, if_neg hno]
      iterate 22 apply scl_skip
      apply scl_head
      iterate 1 apply scl_skip
      exact scl_here _ _ _
    · simp only [generateReadme, runCmd, if_neg h]
      iterate 30 apply scl_skip
      exact scl_here _ _ _
    · simp only [generateReadme, runCmd, if_neg h]
      iterate 33 apply scl_skip
      exact scl_here _ _ _
  | true =>
    have hyes : (true : Bool) = true := rfl
    refine ⟨hr, rfl, ?_, ?_, ?_, ?_, ?_, fun _ => ?_, ?_, ?_⟩
    · simp only [generateReadme, runCmd, if_neg h]
      iterate 7 apply scl_skip
      exact scl_here _ _ _
    · simp only [generateReadme, runCmd, if_neg h]
      iterate 10 apply scl_skip
      exact scl_here _ _ _
    · simp only [generateReadme, runCmd, if_neg h]
      iterate 13 apply scl_skip
      exact scl_here _ _ _
    · simp only [generateReadme, runCmd, if_neg h]
      iterate 16 apply scl_skip
      exact scl_here _ _ _
    · simp only [generateReadme, runCmd, if_neg h, if_pos hyes]
      iterate 22 apply scl_skip
      apply scl_head
      iterate 4 apply scl_skip
      exact scl_here _ _ _
    · simp only [generateReadme, runCmd, if_neg h, if_pos hyes]
      iterate 22 apply scl_skip
      apply scl_head
      iterate 1 apply scl_skip
      exact scl_here _ _ _
    · simp only [generateReadme, runCmd, if_neg h]
      iterate 30 apply scl_skip
      exact scl_here _ _ _
    · simp only [generateReadme, runCmd, if_neg h]
      iterate 33 apply scl_skip
      exact scl_here _ _ _

/-- C10 witness: an arbitrary unrecognized manager string (`bun`) is
embedded verbatim in the install command example. -/
theorem c10_witness :
    strContains ("bun" ++ " install") (generateReadme "demo-api" true "bun") = true :=
  (c10_verbatim_package_manager "demo-api" true "bun" (by decide)).2.2.1
